import Mathlib

/-!
Shallow embedding of the composite matching engine of the `filament`
repository (`code/core/search/specificity_search.py` and
`code/core/utils/geo_utils.py`), together with theorems settling the
frozen claims about it.

Conventions of the embedding:
* SQL `NULL` and Python `None` are `Option.none`; Python truthiness checks
  (`if x:`) are modelled where the source performs them, so `0`, `""` and
  `None` are all "falsy" exactly where the code treats them so.
* Python floats are embedded as exact numbers: values that the code only
  compares or combines with field operations are `ℚ`/`ℤ`/`ℕ`, while values
  produced by the transcendental functions `math.log10` / `math.exp` /
  trigonometry are idealised reals (`ℝ`).
* SQLite stores dates as ISO-8601 `TEXT` (`yyyy-mm-dd`) and compares them
  byte-wise; on these fixed-width strings that order coincides with the
  numeric order of the `yyyymmdd` value, so a date is embedded as that
  natural number (`encodeDate`), and the sentinel string `'9999-12-31'`
  of `CompositeMatcher._match_chunk` becomes `99991231`.
* Worker processes only read the shared statistics and memoise a pure
  function of them (`idf_cache`), so the cache is transparent and the
  scoring functions are embedded cache-free.
-/

/-- Characters matched by the regex `\w` used in `WORD_PATTERN = re.compile(r'\w+')`
(ASCII fragment: letters, digits, underscore). -/
def isWordChar (c : Char) : Bool := c.isAlphanum || c = '_'

/-- Splits a lowered character stream into the maximal runs of word
characters, i.e. `WORD_PATTERN.findall`.  The second argument accumulates
the current run in reverse. -/
def tokenizeAux : List Char → List Char → List String
  | [], acc => if acc.isEmpty then [] else [String.mk acc.reverse]
  | c :: rest, acc =>
    if isWordChar c then tokenizeAux rest (c :: acc)
    else if acc.isEmpty then tokenizeAux rest []
    else String.mk acc.reverse :: tokenizeAux rest []

/-- `WORD_PATTERN.findall(text.lower())`: the whole text is lowercased
first, then split into `\w+` runs. -/
def findWords (s : String) : List String :=
  tokenizeAux (s.data.map Char.toLower) []

/-- The stop-word set configured in `CompositeMatcher.__init__`
(`self.stop_words`), transcribed entry for entry; the Python literal
repeats `'found'`, `'black'` and `'white'`, which is irrelevant for the
set semantics used through membership. -/
def stop_words : List String :=
  ["the", "and", "was", "with", "found", "on", "in", "at", "of", "for", "to", "is", "has",
   "unknown", "unsure", "uncertain", "years", "old", "male", "female", "white", "black",
   "caucasian", "american", "african", "hispanic", "asian", "native", "race", "sex",
   "estimated", "approximately", "approx", "about", "inches", "pounds", "cm", "kg", "lbs",
   "body", "description", "subject", "case", "number", "discovery", "location", "found",
   "sighting", "last", "seen", "contact", "date", "remains", "charred", "skeletonized",
   "burned", "discovered", "debris", "underneath", "after", "before", "around", "above",
   "below", "where", "which", "there", "their", "them", "they", "this", "that", "from",
   "into", "been", "were", "also", "some", "many", "very", "small", "large", "water",
   "side", "both", "between", "area", "name", "time", "well", "worn", "long", "size",
   "brand", "color", "black", "white", "blue", "red", "green", "yellow", "brown", "gray"]

/-- `CompositeMatcher._get_words`: empty (or missing) text yields the
empty set; otherwise the deduplicated `\w+` tokens of the lowercased
text, keeping only tokens longer than two characters that are not purely
numeric (`str.isdigit`). -/
def get_words (s : String) : List String :=
  if s = "" then []
  else ((findWords s).dedup).filter fun w =>
    decide (2 < w.length) && !(w.data.all Char.isDigit)

/-- The token set actually used for a description throughout the engine:
`self._get_words(text) - self.stop_words`. -/
def docWords (s : String) : List String :=
  (get_words s).filter fun w => !(decide (w ∈ stop_words))

/-- One step of the document-frequency count of `CompositeMatcher.load_stats`:
every word of the document's (stop-word-subtracted) token set has its
count incremented. -/
def addDoc (df : String → ℕ) (ws : List String) : String → ℕ :=
  fun w => if w ∈ ws then df w + 1 else df w

/-- The per-collection loop of `CompositeMatcher.load_stats`: walk the
`description` column; a falsy description (`NULL` or empty, `if row[0]:`)
is skipped entirely, otherwise the total-document counter is incremented
and each token of `_get_words(description) - stop_words` has its document
frequency incremented.  Returns `(document_frequency, total_documents)`. -/
def load_stats_collection (docs : List String) : (String → ℕ) × ℕ :=
  docs.foldl
    (fun acc d => if d = "" then acc else (addDoc acc.1 (docWords d), acc.2 + 1))
    (fun _ => 0, 0)

/-- A calendar date embedded as the number `yyyymmdd`; byte-wise
comparison of fixed-width ISO-8601 `TEXT` dates in SQLite coincides with
the numeric order of this encoding. -/
def encodeDate (y m d : ℕ) : ℕ := y * 10000 + m * 100 + d

/-- The sentinel `'9999-12-31'` substituted by `_match_chunk` when the
discovery date is falsy (`u["u_date"] if u["u_date"] else '9999-12-31'`). -/
def sentinelDate : ℕ := encodeDate 9999 12 31

/-- The timeline clause of the candidate SQL query in `_match_chunk`:
`(last_seen_date IS NULL OR last_seen_date <= u_date_limit)` where
`u_date_limit` is the discovery date or the sentinel. -/
def datePass (u_date : Option ℕ) (m_date : Option ℕ) : Bool :=
  match m_date with
  | none => true
  | some dm => dm ≤ (match u_date with | none => sentinelDate | some du => du)

/-- The sex clause of the candidate SQL query: only added when the
unidentified sex is truthy and not `'Uncertain'`/`'Unknown'`, in which
case `(sex IS NULL OR sex IN ('Unknown', 'Uncertain', u_sex))`. -/
def sexPass (u_sex : Option String) (m_sex : Option String) : Bool :=
  match u_sex with
  | none => true
  | some s =>
    if s = "" || s = "Uncertain" || s = "Unknown" then true
    else match m_sex with
      | none => true
      | some t => t = "Unknown" || t = "Uncertain" || t = s

/-- The bounding-box clause of the candidate SQL query: only added when
both discovery coordinates are non-`NULL` (`is not None`), in which case
`(last_seen_lat IS NULL OR (last_seen_lat BETWEEN u_lat-8 AND u_lat+8 AND
last_seen_lon BETWEEN u_lon-8 AND u_lon+8))`.  Under SQL three-valued
logic a known latitude with a `NULL` longitude makes the inner
conjunction `NULL`, so the row is filtered out. -/
def geoPass (u_lat u_lon : Option ℚ) (m_lat m_lon : Option ℚ) : Bool :=
  match u_lat, u_lon with
  | some ula, some ulo =>
    (match m_lat with
     | none => true
     | some mla =>
       (decide (ula - 8 ≤ mla) && decide (mla ≤ ula + 8)) &&
       (match m_lon with
        | none => false
        | some mlo => decide (ulo - 8 ≤ mlo) && decide (mlo ≤ ulo + 8)))
  | _, _ => true

/-- The age hard-exclusion of `_match_chunk` step 4, with Python
truthiness on every operand:
`if u_age_min and m_age and (m_age < u_age_min - 10 or (u_age_max and m_age > u_age_max + 10)): continue`. -/
def ageExcluded (u_age_min u_age_max m_age : Option ℤ) : Bool :=
  match u_age_min, m_age with
  | some a, some g =>
    decide (a ≠ 0) && decide (g ≠ 0) &&
      (decide (g < a - 10) ||
        (match u_age_max with
         | none => false
         | some b => decide (b ≠ 0) && decide (b + 10 < g)))
  | _, _ => false

/-- An unidentified-remains row, in the column order of the `SELECT` in
`CompositeMatcher.find_leads`.  Descriptions are embedded as `String`
with `""` for `NULL` (both are falsy wherever the code tests them). -/
structure UhrRecord where
  u_num : String
  u_sex : Option String
  u_age_min : Option ℤ
  u_age_max : Option ℤ
  u_date : Option ℕ
  u_desc : String
  u_lat : Option ℚ
  u_lon : Option ℚ
  u_race : Option String
  u_dna : Option String
  u_dental : Option String
deriving DecidableEq

/-- A missing-person row, in the column order of the `SELECT` in
`CompositeMatcher._match_chunk`. -/
structure MPRecord where
  file_number : String
  name : Option String
  age_at_disappearance : Option ℤ
  last_seen_date : Option ℕ
  description : String
  last_seen_lat : Option ℚ
  last_seen_lon : Option ℚ
  sex : Option String
  race : Option String
  dna_status : Option String
  dental_status : Option String
deriving DecidableEq

/-- The complete `WHERE` clause of the candidate query built in
`_match_chunk` (timeline, optional sex, optional bounding box). -/
def candidateFilter (u : UhrRecord) (m : MPRecord) : Bool :=
  datePass u.u_date m.last_seen_date &&
  sexPass u.u_sex m.sex &&
  geoPass u.u_lat u.u_lon m.last_seen_lat m.last_seen_lon

/-- The chunk size chosen by the parallel branch of `find_leads`:
`chunk_size = max(1, len(processed_uhr) // num_workers)` (Python floor
division). -/
def chunk_size (n num_workers : ℕ) : ℕ := max 1 (n / num_workers)

/-- Ceiling division `⌈n / w⌉`, the chunk size the specification asks for. -/
def ceilDiv (n w : ℕ) : ℕ := (n + w - 1) / w

/-- The chunk list built by the parallel branch of `find_leads`:
`[processed_uhr[i:i + chunk_size] for i in range(0, len(processed_uhr), chunk_size)]`.
The guard `c = 0` is unreachable from the source (`chunk_size ≥ 1`) and
only renders the recursion total. -/
def chunksList (c : ℕ) (l : List α) : List (List α) :=
  if _h : c = 0 then []
  else match l with
    | [] => []
    | x :: xs => ((x :: xs).take c) :: chunksList c ((x :: xs).drop c)
termination_by l.length
decreasing_by
  simp only [List.length_drop, List.length_cons]
  omega

/-- `CompositeMatcher.calculate_specificity`: stop words score `0`; a
token with document frequency `0` (`count <= 0`, counts are naturals
here) scores the fixed "extremely rare" constant `2.5`; otherwise
`math.log10(total_docs / count)`. -/
noncomputable def calculate_specificity (word : String) (df : String → ℕ) (total_docs : ℕ) : ℝ :=
  if word ∈ stop_words then 0
  else if df word = 0 then 2.5
  else Real.logb 10 ((total_docs : ℝ) / (df word : ℝ))

/-- The corpus statistics shared with workers in `find_leads`
(`stats = {"uhr_df": ..., "mp_df": ..., "uhr_total": ..., "mp_total": ...}`);
the memo `idf_cache` caches a pure function of these fields and is
embedded away. -/
structure Stats where
  uhr_df : String → ℕ
  mp_df : String → ℕ
  uhr_total : ℕ
  mp_total : ℕ

/-- The value memoised in `idf_cache` inside
`CompositeMatcher.score_text_overlap`: the two per-collection
specificities of a word, averaged. -/
noncomputable def avg_specificity (st : Stats) (w : String) : ℝ :=
  (calculate_specificity w st.uhr_df st.uhr_total +
   calculate_specificity w st.mp_df st.mp_total) / 2

open Classical in
/-- `CompositeMatcher.score_text_overlap`: intersect the two word sets;
an empty intersection returns `(0, [])`; otherwise sum the averaged
specificities of the common words, annotate words above the `2.2`
("Rare") and `1.5` thresholds, and return `(min(1, total/35), features)`. -/
noncomputable def score_text_overlap (st : Stats) (words1 words2 : List String) :
    ℝ × List String :=
  let common := words1.filter fun w => words2.contains w
  if common = [] then (0, [])
  else
    let total_score := (common.map (avg_specificity st)).sum
    let matched_features := common.filterMap fun w =>
      if 2.2 < avg_specificity st w then some (w ++ " (Rare)")
      else if 1.5 < avg_specificity st w then some w
      else none
    (min 1 (total_score / 35), matched_features)

/-- `CompositeMatcher.calculate_phenotypic_score`: `0.5` added when both
races are truthy and equal, then `min(1, score * 2)`. -/
noncomputable def calculate_phenotypic_score (u_race m_race : Option String) : ℝ :=
  let score : ℝ :=
    match u_race, m_race with
    | some a, some b => if a ≠ "" ∧ b ≠ "" ∧ a = b then 0.5 else 0
    | _, _ => 0
  min 1 (score * 2)

/-- `CompositeMatcher.calculate_bio_multiplier`: `1.5` when both sides
are DNA-`'Complete'` or both sides are dental-`'Complete'`, else `1.0`. -/
noncomputable def calculate_bio_multiplier (u_dna u_dental m_dna m_dental : Option String) : ℝ :=
  if (u_dna = some "Complete" ∧ m_dna = some "Complete") ∨
     (u_dental = some "Complete" ∧ m_dental = some "Complete") then 1.5 else 1.0

/-- Line 238 of `specificity_search.py`:
`composite_score = (text_score * 0.4) + (geo_score * 0.3) + (pheno_score * 0.3)`. -/
noncomputable def composite_score (text_score geo_score pheno_score : ℝ) : ℝ :=
  text_score * 0.4 + geo_score * 0.3 + pheno_score * 0.3

/-- Line 242 of `specificity_search.py`:
`final_score = min(1.0, composite_score * multiplier)`. -/
noncomputable def final_score (composite multiplier : ℝ) : ℝ :=
  min 1 (composite * multiplier)

/-- Degrees to radians, `math.radians`. -/
noncomputable def radians (d : ℝ) : ℝ := d * Real.pi / 180

open Classical in
/-- `math.atan2 y x`: the angle of the point `(x, y)`, written out
piecewise over `Real.arctan`. -/
noncomputable def atan2 (y x : ℝ) : ℝ :=
  if 0 < x then Real.arctan (y / x)
  else if x < 0 then
    (if 0 ≤ y then Real.arctan (y / x) + Real.pi else Real.arctan (y / x) - Real.pi)
  else
    (if 0 < y then Real.pi / 2 else if y < 0 then -(Real.pi / 2) else 0)

/-- `geo_utils.haversine_distance`: `None` when any coordinate is `None`,
otherwise the great-circle distance in miles (`R = 3958.8`). -/
noncomputable def haversine_distance (lat1 lon1 lat2 lon2 : Option ℚ) : Option ℝ :=
  match lat1, lon1, lat2, lon2 with
  | some la1, some lo1, some la2, some lo2 =>
    let R : ℝ := 3958.8
    let phi1 := radians (la1 : ℝ)
    let phi2 := radians (la2 : ℝ)
    let dphi := radians ((la2 : ℝ) - (la1 : ℝ))
    let dlambda := radians ((lo2 : ℝ) - (lo1 : ℝ))
    let a := Real.sin (dphi / 2) ^ 2 +
      Real.cos phi1 * Real.cos phi2 * Real.sin (dlambda / 2) ^ 2
    some (R * (2 * atan2 (Real.sqrt a) (Real.sqrt (1 - a))))
  | _, _, _, _ => none

/-- `geo_utils.calculate_geo_score`: neutral `0.5` for an unknown
distance, otherwise exponential decay `e^(-distance / 300)`. -/
noncomputable def calculate_geo_score (distance_miles : Option ℝ) : ℝ :=
  match distance_miles with
  | none => 0.5
  | some d => Real.exp (-d / 300)

/-- `round(x, 3)` applied to the final score before it is emitted
(`Real`-idealised; the tie behaviour of Python's bankers rounding at
exact half-thousandths is not relied on by any claim). -/
noncomputable def round3 (x : ℝ) : ℝ := (round (x * 1000) : ℤ) / 1000

/-- The emitted lead dictionary of `_match_chunk` step 9. -/
structure Lead where
  uhr_case : String
  mp_file : String
  mp_name : Option String
  score : ℝ
  shared_features : List String
  uhr_desc_preview : String
  mp_desc_preview : String

open Classical in
/-- The body of the `for u in uhr_subset` loop of
`CompositeMatcher._match_chunk` for one unidentified record: the SQL
candidate filter, the age hard-exclusion, the four sub-scores, the
composite/bio combination, the threshold test and the lead assembly.
`mps` is the `missing_persons` table in storage order (each worker issues
the same query against the same database, so every path sees the same
row order); `u_words` is computed here from the description, exactly the
value `find_leads` precomputes per record before chunking. -/
noncomputable def matchOne (u : UhrRecord) (mps : List MPRecord) (st : Stats)
    (min_score : ℝ) : List Lead :=
  (mps.filter fun m => candidateFilter u m).filterMap fun m =>
    if ageExcluded u.u_age_min u.u_age_max m.age_at_disappearance then none
    else
      let u_words := docWords u.u_desc
      let m_words := docWords m.description
      let ts := score_text_overlap st u_words m_words
      let dist := haversine_distance u.u_lat u.u_lon m.last_seen_lat m.last_seen_lon
      let geo_score := calculate_geo_score dist
      let pheno_score := calculate_phenotypic_score u.u_race m.race
      let multiplier := calculate_bio_multiplier u.u_dna u.u_dental m.dna_status m.dental_status
      let fs := final_score (composite_score ts.1 geo_score pheno_score) multiplier
      if min_score ≤ fs then
        some { uhr_case := u.u_num
               mp_file := m.file_number
               mp_name := m.name
               score := round3 fs
               shared_features := ts.2 ++
                 (match dist with
                  | some d => [toString (⌊d⌋ : ℤ) ++ " miles away"]
                  | none => [])
               uhr_desc_preview := u.u_desc.take 200
               mp_desc_preview := m.description.take 200 }
      else none

/-- `CompositeMatcher._match_chunk`: the per-record results accumulated
in source-record order over the chunk. -/
noncomputable def match_chunk (uhr_subset : List UhrRecord) (mps : List MPRecord)
    (st : Stats) (min_score : ℝ) : List Lead :=
  uhr_subset.flatMap fun u => matchOne u mps st min_score

/-- The lead list `all_leads` of `CompositeMatcher.find_leads` before
ranking: the parallel branch chunks the record list and concatenates the
per-chunk results in submission order; the sequential branch scores the
whole list in one call.  `num_workers` stands for
`os.cpu_count() or 4`. -/
noncomputable def all_leads (parallel : Bool) (num_workers : ℕ)
    (processed_uhr : List UhrRecord) (mps : List MPRecord) (st : Stats)
    (min_score : ℝ) : List Lead :=
  if parallel then
    ((chunksList (chunk_size processed_uhr.length num_workers) processed_uhr).map
      fun chunk => match_chunk chunk mps st min_score).flatten
  else
    match_chunk processed_uhr mps st min_score

/-- Concrete empty-field unidentified record used to instantiate
universally quantified theorems. -/
def sampleU : UhrRecord :=
  ⟨"U1", none, none, none, none, "", none, none, none, none, none⟩

/-- Concrete empty-field missing-person record used to instantiate
universally quantified theorems. -/
def sampleM : MPRecord :=
  ⟨"M1", none, none, none, "", none, none, none, none, none, none⟩

/-- Concrete empty corpus statistics used to instantiate universally
quantified theorems. -/
def sampleStats : Stats := ⟨fun _ => 0, fun _ => 0, 0, 0⟩

theorem chunksList_nil (c : ℕ) : chunksList c ([] : List α) = [] := by
  rw [chunksList]
  split <;> rfl

theorem chunksList_cons (c : ℕ) (hc : c ≠ 0) (x : α) (xs : List α) :
    chunksList c (x :: xs) =
      ((x :: xs).take c) :: chunksList c ((x :: xs).drop c) := by
  rw [chunksList, dif_neg hc]

theorem chunksList_flatten (c : ℕ) (hc : 1 ≤ c) :
    ∀ l : List α, (chunksList c l).flatten = l := by
  have H : ∀ n, ∀ l : List α, l.length ≤ n → (chunksList c l).flatten = l := by
    intro n
    induction n with
    | zero =>
      intro l hl
      have hnil : l = [] := List.eq_nil_of_length_eq_zero (by omega)
      subst hnil
      rw [chunksList_nil]
      rfl
    | succ n ih =>
      intro l hl
      match l with
      | [] => rw [chunksList_nil]; rfl
      | x :: xs =>
        rw [chunksList_cons c (by omega) x xs, List.flatten_cons,
            ih _ (by simp only [List.length_drop, List.length_cons]; simp at hl; omega)]
        exact List.take_append_drop c (x :: xs)
  intro l
  exact H l.length l le_rfl

theorem flatten_map_flatMap (L : List (List α)) (f : α → List β) :
    (L.map fun chunk => chunk.flatMap f).flatten = L.flatten.flatMap f := by
  induction L with
  | nil => simp
  | cons chunk rest ih => simp [ih]

/-- Claim C1: for the same input records, database contents and
`min_score`, the parallel (`parallel=true`) and sequential
(`parallel=false`) branches of `find_leads` produce the same leads
before ranking — here proved as equality of the full lead lists, which
in particular means equal lead sets. -/
theorem spec_C1_parallel_eq_sequential (w : ℕ) (hw : 1 ≤ w)
    (uhrs : List UhrRecord) (mps : List MPRecord) (st : Stats) (ms : ℝ) :
    all_leads true w uhrs mps st ms = all_leads false w uhrs mps st ms := by
  have h1 : all_leads true w uhrs mps st ms =
      ((chunksList (chunk_size uhrs.length w) uhrs).map
        fun chunk => match_chunk chunk mps st ms).flatten := by
    simp [all_leads]
  have h2 : all_leads false w uhrs mps st ms = match_chunk uhrs mps st ms := by
    simp [all_leads]
  rw [h1, h2]
  simp only [match_chunk]
  rw [flatten_map_flatMap]
  rw [chunksList_flatten (chunk_size uhrs.length w) (le_max_left 1 (uhrs.length / w)) uhrs]

/-- Witness for C1 at a concrete input. -/
theorem spec_C1_witness :
    (1 : ℕ) ≤ 2 ∧
      all_leads true 2 [sampleU] [sampleM] sampleStats 0.35 =
        all_leads false 2 [sampleU] [sampleM] sampleStats 0.35 :=
  ⟨by norm_num,
   spec_C1_parallel_eq_sequential 2 (by norm_num) [sampleU] [sampleM] sampleStats 0.35⟩

/-- Claim C3: for sub-scores in `[0,1]` and a bio multiplier in
`{1.0, 1.5}`, `min(1, (0.4·text + 0.3·geo + 0.3·pheno) · multiplier)`
lies in `[0,1]`. -/
theorem spec_C3_combine_in_unit (t g p m : ℝ)
    (ht0 : 0 ≤ t) (ht1 : t ≤ 1) (hg0 : 0 ≤ g) (hg1 : g ≤ 1)
    (hp0 : 0 ≤ p) (hp1 : p ≤ 1) (hm : m = 1 ∨ m = 1.5) :
    0 ≤ final_score (composite_score t g p) m ∧
      final_score (composite_score t g p) m ≤ 1 := by
  have hm0 : 0 ≤ m := by rcases hm with h | h <;> rw [h] <;> norm_num
  have hc0 : 0 ≤ composite_score t g p := by
    unfold composite_score
    nlinarith
  constructor
  · exact le_min (by norm_num) (mul_nonneg hc0 hm0)
  · exact min_le_left _ _

/-- Witness for C3 at a concrete input. -/
theorem spec_C3_witness :
    0 ≤ final_score (composite_score 0.5 0.5 0.5) 1.5 ∧
      final_score (composite_score 0.5 0.5 0.5) 1.5 ≤ 1 :=
  spec_C3_combine_in_unit 0.5 0.5 0.5 1.5 (by norm_num) (by norm_num) (by norm_num)
    (by norm_num) (by norm_num) (by norm_num) (Or.inr (by norm_num))

theorem ceilDiv_eq (n w : ℕ) (hw : 1 ≤ w) :
    ceilDiv n w = n / w + (if n % w = 0 then 0 else 1) := by
  have hmod := Nat.div_add_mod n w
  have hrw : n % w < w := Nat.mod_lt _ (by omega)
  by_cases h0 : n % w = 0
  · rw [if_pos h0]
    have e1 : (n / w + 1) * w = w * (n / w) + w := by ring
    have e2 : n / w * w = w * (n / w) := Nat.mul_comm _ _
    have h : (n + w - 1) / w = n / w :=
      Nat.div_eq_of_lt_le (by rw [e2]; omega)
        (by rw [e1]; omega)
    simpa [ceilDiv] using h
  · rw [if_neg h0]
    have e1 : (n / w + 1 + 1) * w = w * (n / w) + w + w := by ring
    have e2 : (n / w + 1) * w = w * (n / w) + w := by ring
    have h : (n + w - 1) / w = n / w + 1 :=
      Nat.div_eq_of_lt_le (by rw [e2]; omega)
        (by rw [e1]; omega)
    simpa [ceilDiv] using h

/-- Counterexample for C6: at `len(uhr_records) = 5` and
`worker_count = 2` the code picks chunk size `max(1, 5 // 2) = 2`, not
`ceil(5 / 2) = 3`. -/
theorem spec_C6_counterexample :
    chunk_size 5 2 = 2 ∧ ceilDiv 5 2 = 3 ∧ chunk_size 5 2 ≠ ceilDiv 5 2 := by
  refine ⟨rfl, rfl, ?_⟩
  decide

/-- Amended claim C6: the chunk size is `max(1, ⌊len / worker_count⌋)`
(Python floor division); it never exceeds `ceil(len / worker_count)`,
and it equals the ceiling exactly when the worker count divides the
length or the list is shorter than the worker count.  (Reproducibility
is immediate: the size is a function of length and worker count alone.) -/
theorem spec_C6_chunk_size (n w : ℕ) (hn : 1 ≤ n) (hw : 1 ≤ w) :
    chunk_size n w ≤ ceilDiv n w ∧
      (chunk_size n w = ceilDiv n w ↔ (w ∣ n ∨ n < w)) := by
  rw [ceilDiv_eq n w hw, Nat.dvd_iff_mod_eq_zero]
  have hmod := Nat.div_add_mod n w
  have hrw : n % w < w := Nat.mod_lt _ (by omega)
  have hchunk : chunk_size n w = max 1 (n / w) := rfl
  rw [hchunk]
  rcases Nat.eq_zero_or_pos (n / w) with hq | hq
  · have hmul : w * (n / w) = 0 := by rw [hq, Nat.mul_zero]
    rw [hq]
    by_cases h0 : n % w = 0
    · rw [if_pos h0]; omega
    · rw [if_neg h0]; omega
  · have hwle := Nat.mul_le_mul_left w hq
    have hmax : max 1 (n / w) = n / w := max_eq_right hq
    rw [hmax]
    by_cases h0 : n % w = 0
    · rw [if_pos h0]; omega
    · rw [if_neg h0]; omega

/-- Witness for the amended C6 at a concrete input. -/
theorem spec_C6_witness :
    (1 : ℕ) ≤ 5 ∧ (1 : ℕ) ≤ 2 ∧
      (chunk_size 5 2 ≤ ceilDiv 5 2 ∧
        (chunk_size 5 2 = ceilDiv 5 2 ↔ (2 ∣ 5 ∨ 5 < 2))) :=
  ⟨by norm_num, by norm_num, spec_C6_chunk_size 5 2 (by norm_num) (by norm_num)⟩

/-- Claim C9: `calculate_geo_score` maps an unknown distance to `0.5`,
zero distance to `1.0`, a known distance `d` to `e^(-d/300)`, and is
strictly decreasing in the distance. -/
theorem spec_C9_geo_score (d1 d2 : ℝ) (h0 : 0 ≤ d1) (h12 : d1 < d2) :
    calculate_geo_score none = 0.5 ∧
      calculate_geo_score (some 0) = 1 ∧
      calculate_geo_score (some d1) = Real.exp (-d1 / 300) ∧
      calculate_geo_score (some d2) < calculate_geo_score (some d1) := by
  refine ⟨rfl, ?_, rfl, ?_⟩
  · show Real.exp (-0 / 300) = 1
    norm_num
  · show Real.exp (-d2 / 300) < Real.exp (-d1 / 300)
    apply Real.exp_lt_exp.mpr
    linarith

/-- Witness for C9 at concrete distances. -/
theorem spec_C9_witness :
    (0 : ℝ) ≤ 100 ∧ (100 : ℝ) < 300 ∧
      (calculate_geo_score none = 0.5 ∧
        calculate_geo_score (some 0) = 1 ∧
        calculate_geo_score (some 100) = Real.exp (-100 / 300) ∧
        calculate_geo_score (some 300) < calculate_geo_score (some 100)) :=
  ⟨by norm_num, by norm_num, spec_C9_geo_score 100 300 (by norm_num) (by norm_num)⟩

/-- Claim C10: the contiguous chunks built by the parallel branch of
`find_leads` concatenate back to the original pre-processed record
list, so every record is dispatched exactly once, for any worker
count ≥ 1 (including when there are more chunks than workers). -/
theorem spec_C10_chunks_cover (l : List UhrRecord) (w : ℕ) (_hw : 1 ≤ w) :
    (chunksList (chunk_size l.length w) l).flatten = l :=
  chunksList_flatten _ (le_max_left _ _) l

/-- Witness for C10 at a concrete three-record list and two workers. -/
theorem spec_C10_witness :
    (1 : ℕ) ≤ 2 ∧
      (chunksList (chunk_size ([sampleU, sampleU, sampleU] : List UhrRecord).length 2)
        [sampleU, sampleU, sampleU]).flatten = [sampleU, sampleU, sampleU] :=
  ⟨by norm_num, spec_C10_chunks_cover [sampleU, sampleU, sampleU] 2 (by norm_num)⟩

/-- Claim C2: candidate generation never admits a pair whose known
last-seen date lies strictly after the known discovery date; and with an
unknown discovery date the substituted sentinel `9999-12-31` bounds
every calendar date, so the timeline clause passes. -/
theorem spec_C2_timeline (u : UhrRecord) (m : MPRecord) (du dm : ℕ)
    (y mo d : ℕ) (hu : u.u_date = some du) (hm : m.last_seen_date = some dm)
    (hlt : du < dm) (hy : y ≤ 9999) (hmo : mo ≤ 12) (hd : d ≤ 31) :
    candidateFilter u m = false ∧
      datePass none (some (encodeDate y mo d)) = true := by
  constructor
  · unfold candidateFilter
    have hdate : datePass u.u_date m.last_seen_date = false := by
      rw [hu, hm]
      simp only [datePass, decide_eq_false_iff_not]
      omega
    rw [hdate, Bool.false_and, Bool.false_and]
  · simp only [datePass, sentinelDate, encodeDate, decide_eq_true_eq]
    omega

/-- Witness for C2 at a concrete pair (discovery 2020-01-01, last seen
2020-02-02) and a concrete valid calendar date. -/
theorem spec_C2_witness :
    candidateFilter
        ⟨"U1", none, none, none, some 20200101, "", none, none, none, none, none⟩
        ⟨"M1", none, none, some 20200202, "", none, none, none, none, none, none⟩ = false ∧
      datePass none (some (encodeDate 2024 6 15)) = true :=
  spec_C2_timeline _ _ 20200101 20200202 2024 6 15 rfl rfl (by norm_num)
    (by norm_num) (by norm_num) (by norm_num)

/-- Counterexample for C7: a missing-person record with `NULL` last-seen
latitude passes the whole candidate filter of an unidentified record
with known discovery coordinates, so admitted records need not lie in
the ±8° bounding box. -/
theorem spec_C7_counterexample :
    candidateFilter
        ⟨"U1", none, none, none, none, "", some 40, some (-100), none, none, none⟩
        ⟨"M1", none, none, none, "", none, none, none, none, none, none⟩ = true ∧
      (⟨"M1", none, none, none, "", none, none, none, none, none, none⟩ :
        MPRecord).last_seen_lat = none := by
  exact ⟨by decide, rfl⟩

/-- Amended claim C7: when the discovery coordinates are known, the
bounding-box pre-filter admits a missing-person record iff its last-seen
latitude is unknown, or both its coordinates are known and lie within
±8° of the discovery point (in particular a known latitude with an
unknown longitude is rejected by the SQL three-valued `AND`). -/
theorem spec_C7_geo_box (ula ulo : ℚ) (m_lat m_lon : Option ℚ) :
    geoPass (some ula) (some ulo) m_lat m_lon = true ↔
      (m_lat = none ∨
        ∃ mla mlo, m_lat = some mla ∧ m_lon = some mlo ∧
          |mla - ula| ≤ 8 ∧ |mlo - ulo| ≤ 8) := by
  cases m_lat with
  | none => simp [geoPass]
  | some mla =>
    cases m_lon with
    | none => simp [geoPass]
    | some mlo =>
      have hb : geoPass (some ula) (some ulo) (some mla) (some mlo) = true ↔
          ((ula - 8 ≤ mla ∧ mla ≤ ula + 8) ∧ (ulo - 8 ≤ mlo ∧ mlo ≤ ulo + 8)) := by
        simp [geoPass]
      rw [hb]
      constructor
      · rintro ⟨⟨h1, h2⟩, h3, h4⟩
        refine Or.inr ⟨mla, mlo, rfl, rfl, ?_, ?_⟩ <;>
          rw [abs_le] <;> constructor <;> linarith
      · rintro (h | ⟨mla', mlo', hEq1, hEq2, hA, hB⟩)
        · exact absurd h (by simp)
        · obtain rfl : mla' = mla := by injection hEq1.symm
          obtain rfl : mlo' = mlo := by injection hEq2.symm
          rw [abs_le] at hA hB
          exact ⟨⟨by linarith [hA.1], by linarith [hA.2]⟩,
                 by linarith [hB.1], by linarith [hB.2]⟩

/-- Counterexample for C8: a missing-person point age of `0` is falsy in
Python, so the pair passes the age filter even though `0` lies outside
the expanded range `[20-10, 30+10]`. -/
theorem spec_C8_counterexample :
    ageExcluded (some 20) (some 30) (some 0) = false ∧ ¬ ((20 : ℤ) - 10 ≤ 0) := by
  exact ⟨by decide, by decide⟩

/-- Amended claim C8: when the unidentified age range and the point age
are all known *and nonzero*, the pair passes the age filter iff the
point age lies within the range expanded by −10/+10; an unknown minimum
or an unknown point age always passes (zero behaves like unknown,
Python truthiness). -/
theorem spec_C8_age_window (a b g : ℤ) (ha : a ≠ 0) (hb : b ≠ 0) (hg : g ≠ 0) :
    (ageExcluded (some a) (some b) (some g) = false ↔
       (a - 10 ≤ g ∧ g ≤ b + 10)) ∧
      (∀ uMax mAge, ageExcluded none uMax mAge = false) ∧
      (∀ uMin uMax, ageExcluded uMin uMax none = false) := by
  refine ⟨?_, ?_, ?_⟩
  · have hneg : ageExcluded (some a) (some b) (some g) = false ↔
        ¬ (ageExcluded (some a) (some b) (some g) = true) := by
      simp
    rw [hneg]
    simp only [ageExcluded, Bool.and_eq_true, Bool.or_eq_true, decide_eq_true_eq]
    omega
  · intro uMax mAge
    cases mAge <;> rfl
  · intro uMin uMax
    cases uMin <;> rfl

/-- Witness for the amended C8 at concrete ages. -/
theorem spec_C8_witness :
    (ageExcluded (some 20) (some 30) (some 25) = false ↔
       ((20 : ℤ) - 10 ≤ 25 ∧ (25 : ℤ) ≤ 30 + 10)) ∧
      (∀ uMax mAge, ageExcluded none uMax mAge = false) ∧
      (∀ uMin uMax, ageExcluded uMin uMax none = false) :=
  spec_C8_age_window 20 30 25 (by norm_num) (by norm_num) (by norm_num)

/-- Counterexample for C4: with 1000 documents, a token never seen gets
the fixed constant `2.5`, while document frequency `1` gives
`log₁₀ 1000 = 3 > 2.5`, so specificity is *not* non-increasing from
`d1 = 0` to `d2 = 1`. -/
theorem spec_C4_counterexample :
    calculate_specificity "hoodie" (fun _ => 0) 1000 = 2.5 ∧
      calculate_specificity "hoodie" (fun _ => 1) 1000 = 3 ∧
      ¬ ((3 : ℝ) ≤ 2.5) := by
  have hns : "hoodie" ∉ stop_words := by decide
  refine ⟨?_, ?_, by norm_num⟩
  · simp [calculate_specificity, hns]
  · have hval : calculate_specificity "hoodie" (fun _ => 1) 1000 =
        Real.logb 10 1000 := by
      simp [calculate_specificity, hns]
    rw [hval, show (1000 : ℝ) = 10 ^ (3 : ℕ) by norm_num, Real.logb_pow,
      Real.logb_self_eq_one (by norm_num)]
    norm_num

/-- Amended claim C4: for a non-stop-word token and a positive total
document count, specificity is monotonically non-increasing on
*positive* document frequencies `1 ≤ d1 ≤ d2`; the claimed extension to
`d1 = 0` fails because the fixed "extremely rare" constant `2.5` is
below `log₁₀(total/d2)` whenever `total > 10^2.5 · d2`. -/
theorem spec_C4_monotone (word : String) (df1 df2 : String → ℕ) (total : ℕ)
    (hns : word ∉ stop_words) (h1 : 1 ≤ df1 word) (h12 : df1 word ≤ df2 word)
    (htot : 1 ≤ total) :
    calculate_specificity word df2 total ≤ calculate_specificity word df1 total := by
  simp only [calculate_specificity, if_neg hns]
  rw [if_neg (by omega), if_neg (by omega)]
  have hdf1 : (0 : ℝ) < (df1 word : ℝ) := by exact_mod_cast h1
  have hdf2 : (0 : ℝ) < (df2 word : ℝ) := by
    exact_mod_cast Nat.lt_of_lt_of_le (by omega) h12
  have htotR : (0 : ℝ) < (total : ℝ) := by exact_mod_cast htot
  apply Real.logb_le_logb_of_le (by norm_num)
  · exact div_pos htotR hdf2
  · gcongr

/-- Witness for the amended C4 at concrete frequencies. -/
theorem spec_C4_witness :
    "hoodie" ∉ stop_words ∧
      calculate_specificity "hoodie" (fun _ => 2) 10 ≤
        calculate_specificity "hoodie" (fun _ => 1) 10 :=
  ⟨by decide,
   spec_C4_monotone "hoodie" (fun _ => 1) (fun _ => 2) 10 (by decide) (by norm_num)
     (by norm_num) (by norm_num)⟩

/-- Counterexample for C5: the stop word `"was"` is tokenized from the
document `"was hoodie"` yet ends with document frequency `0`, because
`load_stats` subtracts the stop-word set *at build time*; the non-stop
token `"hoodie"` is counted. -/
theorem spec_C5_counterexample :
    "was" ∈ stop_words ∧
      "was" ∈ get_words "was hoodie" ∧
      (load_stats_collection ["was hoodie"]).1 "was" = 0 ∧
      (load_stats_collection ["was hoodie"]).1 "hoodie" = 1 := by
  exact ⟨by decide, by decide, by decide, by decide⟩

theorem load_stats_foldl_stop (word : String) (hw : word ∈ stop_words) :
    ∀ (docs : List String) (acc : (String → ℕ) × ℕ), acc.1 word = 0 →
      (docs.foldl
        (fun acc d => if d = "" then acc else (addDoc acc.1 (docWords d), acc.2 + 1))
        acc).1 word = 0 := by
  intro docs
  induction docs with
  | nil => intro acc h; simpa using h
  | cons d rest ih =>
    intro acc hacc
    rw [List.foldl_cons]
    apply ih
    by_cases hd : d = ""
    · rw [if_pos hd]; exact hacc
    · rw [if_neg hd]
      show addDoc acc.1 (docWords d) word = 0
      have hnotin : word ∉ docWords d := by
        intro hmem
        unfold docWords at hmem
        rw [List.mem_filter] at hmem
        have h2 := hmem.2
        simp only [Bool.not_eq_true', decide_eq_false_iff_not] at h2
        exact h2 hw
      simp only [addDoc, if_neg hnotin]
      exact hacc

/-- Amended claim C5: the build step of `load_stats` subtracts the
configured stop-word set from every document's token set *before*
counting, so the document-frequency tables hold count `0` for every
stop-word token; the stop-word set is applied again at scoring time,
where a stop word's specificity is `0`. -/
theorem spec_C5_stop_words_removed (docs : List String) (word : String)
    (df : String → ℕ) (total : ℕ) (hw : word ∈ stop_words) :
    (load_stats_collection docs).1 word = 0 ∧
      calculate_specificity word df total = 0 := by
  constructor
  · unfold load_stats_collection
    exact load_stats_foldl_stop word hw docs (fun _ => 0, 0) rfl
  · unfold calculate_specificity
    rw [if_pos hw]

/-- Witness for the amended C5 at a concrete corpus. -/
theorem spec_C5_witness :
    "was" ∈ stop_words ∧
      ((load_stats_collection ["was hoodie"]).1 "was" = 0 ∧
        calculate_specificity "was" (fun _ => 7) 40 = 0) :=
  ⟨by decide, spec_C5_stop_words_removed ["was hoodie"] "was" (fun _ => 7) 40 (by decide)⟩
